import Mathlib

/-!
Shallow embedding of the Algae Carbon Sequestration Model
(src/src/models/algae_model.py) over the reals, together with theorems
settling the specification claims. Python floats are modelled as `ℝ`;
`float('inf')` in `calculate_cost_per_tonne_co2` is modelled by `EReal`
with `⊤`.
-/

noncomputable section

open Real

/-- Embeds the dataclass `AlgaeStrain` (algae_model.py lines 16-28). -/
structure AlgaeStrain where
  name : String
  carbon_content_percent : ℝ
  doubling_time_hours : ℝ
  photosynthetic_efficiency : ℝ
  sinking_rate_m_per_day : ℝ
  export_fraction : ℝ
  optimal_temperature_range : ℝ × ℝ
  optimal_salinity_range : ℝ × ℝ
  genetic_kill_switch : Bool
  r_and_d_cost_millions : ℝ

/-- Embeds the dataclass `EnvironmentalConditions` (lines 31-42). -/
structure EnvironmentalConditions where
  euphotic_depth_m : ℝ
  surface_temperature_celsius : ℝ
  salinity_ppt : ℝ
  nutrient_nitrogen_umol_per_l : ℝ
  nutrient_phosphorus_umol_per_l : ℝ
  nutrient_iron_nmol_per_l : ℝ
  mixing_depth_m : ℝ
  current_speed_m_per_s : ℝ
  sequestration_depth_m : ℝ

/-- Embeds the dataclass `OperationalParameters` (lines 45-54). -/
structure OperationalParameters where
  area_km2 : ℝ
  application_frequency_per_year : ℝ
  cultivation_cost_per_kg : ℝ
  delivery_cost_per_kg : ℝ
  vessel_cost_per_day : ℝ
  monitoring_cost_per_year : ℝ
  regulatory_cost_per_year : ℝ

/-- Validity of a strain record per spec section 3 (the data-model
invariants the presentation layer is said to enforce). -/
def AlgaeStrain.Valid (s : AlgaeStrain) : Prop :=
  0 < s.carbon_content_percent ∧ s.carbon_content_percent ≤ 100 ∧
  0 < s.doubling_time_hours ∧
  0 < s.photosynthetic_efficiency ∧ s.photosynthetic_efficiency ≤ 1 ∧
  0 < s.sinking_rate_m_per_day ∧
  0 ≤ s.export_fraction ∧ s.export_fraction ≤ 1 ∧
  s.optimal_temperature_range.1 < s.optimal_temperature_range.2 ∧
  s.optimal_salinity_range.1 < s.optimal_salinity_range.2 ∧
  0 ≤ s.r_and_d_cost_millions

/-- Validity of an environment record per spec section 3. -/
def EnvironmentalConditions.Valid (e : EnvironmentalConditions) : Prop :=
  0 < e.euphotic_depth_m ∧
  0 < e.salinity_ppt ∧
  0 ≤ e.nutrient_nitrogen_umol_per_l ∧
  0 ≤ e.nutrient_phosphorus_umol_per_l ∧
  0 ≤ e.nutrient_iron_nmol_per_l ∧
  0 < e.mixing_depth_m ∧
  0 ≤ e.current_speed_m_per_s ∧
  0 < e.sequestration_depth_m

/-- Validity of an operations record per spec section 3. -/
def OperationalParameters.Valid (o : OperationalParameters) : Prop :=
  0 < o.area_km2 ∧
  0 < o.application_frequency_per_year ∧
  0 ≤ o.cultivation_cost_per_kg ∧
  0 ≤ o.delivery_cost_per_kg ∧
  0 ≤ o.vessel_cost_per_day ∧
  0 ≤ o.monitoring_cost_per_year ∧
  0 ≤ o.regulatory_cost_per_year

/-- Embeds `_temperature_response_factor` (lines 97-109): 0 strictly
outside the optimal range, 1 exactly at the midpoint, otherwise the
bell curve `1 - ((temp - mid) / (max - min))^2`. -/
def temperature_response_factor (s : AlgaeStrain) (e : EnvironmentalConditions) : ℝ :=
  if e.surface_temperature_celsius < s.optimal_temperature_range.1 ∨
      e.surface_temperature_celsius > s.optimal_temperature_range.2 then 0
  else if e.surface_temperature_celsius =
      (s.optimal_temperature_range.1 + s.optimal_temperature_range.2) / 2 then 1
  else 1 - ((e.surface_temperature_celsius -
      (s.optimal_temperature_range.1 + s.optimal_temperature_range.2) / 2) /
      (s.optimal_temperature_range.2 - s.optimal_temperature_range.1)) ^ 2

/-- Embeds `_light_limitation_factor` (lines 111-120). -/
def light_limitation_factor (e : EnvironmentalConditions) : ℝ :=
  if e.euphotic_depth_m < 10 then 0.1
  else if e.euphotic_depth_m > 100 then 1
  else 0.1 + 0.9 * (e.euphotic_depth_m - 10) / 90

/-- Embeds `_nutrient_limitation_factor` (lines 122-133): Liebig minimum
of the three normalized capped nutrient ratios. -/
def nutrient_limitation_factor (e : EnvironmentalConditions) : ℝ :=
  min (min 1 (e.nutrient_nitrogen_umol_per_l / 5))
    (min (min 1 (e.nutrient_phosphorus_umol_per_l / 0.3))
      (min 1 (e.nutrient_iron_nmol_per_l / 0.06)))

/-- Embeds `_salinity_response_factor` (lines 135-145), same shape as the
temperature factor over the optimal salinity range. -/
def salinity_response_factor (s : AlgaeStrain) (e : EnvironmentalConditions) : ℝ :=
  if e.salinity_ppt < s.optimal_salinity_range.1 ∨
      e.salinity_ppt > s.optimal_salinity_range.2 then 0
  else if e.salinity_ppt =
      (s.optimal_salinity_range.1 + s.optimal_salinity_range.2) / 2 then 1
  else 1 - ((e.salinity_ppt -
      (s.optimal_salinity_range.1 + s.optimal_salinity_range.2) / 2) /
      (s.optimal_salinity_range.2 - s.optimal_salinity_range.1)) ^ 2

/-- Embeds the base growth rate `np.log(2) / (doubling_time_hours / 24)`
from `calculate_growth_rate` (line 77). -/
def base_growth_rate (s : AlgaeStrain) : ℝ :=
  Real.log 2 / (s.doubling_time_hours / 24)

/-- Embeds `calculate_growth_rate` (lines 74-95): the base rate times the
four response factors, floored at 0. -/
def calculate_growth_rate (s : AlgaeStrain) (e : EnvironmentalConditions) : ℝ :=
  max 0 (base_growth_rate s * temperature_response_factor s e *
    light_limitation_factor e * nutrient_limitation_factor e *
    salinity_response_factor s e)

/-- Embeds `calculate_net_primary_productivity` (lines 147-158):
`growth_rate * 1.0 * mixing_depth_m * 365.25`, floored at 0. -/
def calculate_net_primary_productivity (s : AlgaeStrain)
    (e : EnvironmentalConditions) : ℝ :=
  max 0 (calculate_growth_rate s e * 1 * e.mixing_depth_m * 365.25)

/-- Embeds `calculate_carbon_export` (lines 160-172): NPP times the export
fraction, attenuated by `exp(-0.1 * sequestration_depth / sinking_rate)`. -/
def calculate_carbon_export (s : AlgaeStrain) (e : EnvironmentalConditions) : ℝ :=
  calculate_net_primary_productivity s e * s.export_fraction *
    Real.exp (-(0.1) * (e.sequestration_depth_m / s.sinking_rate_m_per_day))

/-- Embeds `calculate_total_carbon_sequestered` (lines 174-179):
`carbon_export_per_m2 * (area_km2 * 1e6) / 1000`. -/
def calculate_total_carbon_sequestered (s : AlgaeStrain)
    (e : EnvironmentalConditions) (o : OperationalParameters) : ℝ :=
  calculate_carbon_export s e * (o.area_km2 * 1e6) / 1000

/-- Embeds `calculate_co2_removed` (lines 181-184):
`carbon_kg * 3.67 / 1000`. -/
def calculate_co2_removed (s : AlgaeStrain) (e : EnvironmentalConditions)
    (o : OperationalParameters) : ℝ :=
  calculate_total_carbon_sequestered s e o * 3.67 / 1000

/-- Embeds `calculate_biomass_required` (lines 186-199): 0 if current NPP
meets the 125 g C/m2/year target, otherwise the gap scaled by carbon
content and area. -/
def calculate_biomass_required (s : AlgaeStrain) (e : EnvironmentalConditions)
    (o : OperationalParameters) : ℝ :=
  if calculate_net_primary_productivity s e ≥ 125 then 0
  else ((125 - calculate_net_primary_productivity s e) /
      s.carbon_content_percent * 100) * (o.area_km2 * 1e6) / 1000

/-- Embeds the dictionary returned by `calculate_operational_costs`
(lines 201-232) as a fixed-shape record. -/
structure CostBreakdown where
  cultivation : ℝ
  delivery : ℝ
  vessel : ℝ
  monitoring : ℝ
  regulatory : ℝ
  r_and_d : ℝ
  total : ℝ

/-- Embeds `calculate_operational_costs` (lines 201-232). -/
def calculate_operational_costs (s : AlgaeStrain) (e : EnvironmentalConditions)
    (o : OperationalParameters) : CostBreakdown :=
  { cultivation := calculate_biomass_required s e o * o.cultivation_cost_per_kg
    delivery := calculate_biomass_required s e o * o.delivery_cost_per_kg
    vessel := o.vessel_cost_per_day * 365.25
    monitoring := o.monitoring_cost_per_year
    regulatory := o.regulatory_cost_per_year
    r_and_d := s.r_and_d_cost_millions * 1e6 / 10
    total := calculate_biomass_required s e o * o.cultivation_cost_per_kg +
      calculate_biomass_required s e o * o.delivery_cost_per_kg +
      o.vessel_cost_per_day * 365.25 + o.monitoring_cost_per_year +
      o.regulatory_cost_per_year + s.r_and_d_cost_millions * 1e6 / 10 }

/-- Embeds `calculate_cost_per_tonne_co2` (lines 234-242): `float('inf')`
when `co2_removed <= 0` is modelled by `⊤ : EReal`, otherwise the real
quotient `total / co2_removed`. -/
def calculate_cost_per_tonne_co2 (s : AlgaeStrain) (e : EnvironmentalConditions)
    (o : OperationalParameters) : EReal :=
  if calculate_co2_removed s e o ≤ 0 then ⊤
  else (((calculate_operational_costs s e o).total / calculate_co2_removed s e o : ℝ) : EReal)

/-- Embeds `_calculate_viability_score` (lines 267-281) on a finite
cost-per-tonne argument: guard returning 0, then
`cost_score * 0.4 + scale_score * 0.4 + safety_score * 0.2`. -/
def calculate_viability_score (s : AlgaeStrain) (cost_per_tonne co2_removed : ℝ) : ℝ :=
  if cost_per_tonne ≤ 0 ∨ co2_removed ≤ 0 then 0
  else max 0 (1 - (cost_per_tonne - 50) / 200) * 0.4 +
    min 1 (co2_removed / 10000) * 0.4 +
    (if s.genetic_kill_switch then 1 else 0.5) * 0.2

/-- The viability score produced by `calculate_viability_metrics`
(line 262). In the source, `cost_per_tonne` is `float('inf')` exactly
when `co2_removed <= 0`, and `_calculate_viability_score` returns 0 in
that case through its `co2_removed <= 0` guard, so the composition
equals 0 there; otherwise `cost_per_tonne` is the finite quotient. -/
def viability_score (s : AlgaeStrain) (e : EnvironmentalConditions)
    (o : OperationalParameters) : ℝ :=
  if calculate_co2_removed s e o ≤ 0 then 0
  else calculate_viability_score s
    ((calculate_operational_costs s e o).total / calculate_co2_removed s e o)
    (calculate_co2_removed s e o)

/-- Embeds the dictionary returned by `calculate_viability_metrics`
(lines 244-265) as a fixed-shape record. -/
structure ViabilityMetrics where
  co2_removed_tonnes_per_year : ℝ
  cost_per_tonne_co2 : EReal
  total_cost_per_year : ℝ
  biomass_required_kg_per_year : ℝ
  carbon_sequestered_kg_per_year : ℝ
  npp_g_c_per_m2_per_year : ℝ
  growth_rate_per_day : ℝ
  viability_score : ℝ
  cost_competitiveness : ℝ
  scale_adequacy : ℝ

/-- Embeds `calculate_viability_metrics` (lines 244-265).
`cost_competitiveness` is `100 / cost_per_tonne if cost_per_tonne > 0
else 0`; when `co2_removed <= 0` the source value is `100 / inf = 0.0`,
and otherwise the finite quotient, which the `if` below reproduces. -/
def calculate_viability_metrics (s : AlgaeStrain) (e : EnvironmentalConditions)
    (o : OperationalParameters) : ViabilityMetrics :=
  { co2_removed_tonnes_per_year := calculate_co2_removed s e o
    cost_per_tonne_co2 := calculate_cost_per_tonne_co2 s e o
    total_cost_per_year := (calculate_operational_costs s e o).total
    biomass_required_kg_per_year := calculate_biomass_required s e o
    carbon_sequestered_kg_per_year := calculate_total_carbon_sequestered s e o
    npp_g_c_per_m2_per_year := calculate_net_primary_productivity s e
    growth_rate_per_day := calculate_growth_rate s e
    viability_score := viability_score s e o
    cost_competitiveness :=
      if 0 < calculate_co2_removed s e o ∧
          0 < (calculate_operational_costs s e o).total / calculate_co2_removed s e o then
        100 / ((calculate_operational_costs s e o).total / calculate_co2_removed s e o)
      else 0
    scale_adequacy := calculate_co2_removed s e o / 1000 }

/-- Explicit-state form of the model object `AlgaeCarbonSequestrationModel`
(lines 57-72): the constructor stores the three input records as fields. -/
structure Model where
  strain : AlgaeStrain
  environment : EnvironmentalConditions
  operations : OperationalParameters

/-- Explicit-state translation of one full evaluation
(`calculate_viability_metrics` plus `calculate_operational_costs` on the
model object): the method bodies only read `self.strain`,
`self.environment` and `self.operations` and never assign to them, so
the post-state of the state-passing translation is the input state. -/
def evaluateM (m : Model) : (ViabilityMetrics × CostBreakdown) × Model :=
  ((calculate_viability_metrics m.strain m.environment m.operations,
    calculate_operational_costs m.strain m.environment m.operations), m)

/-! Concrete records from the source's sample data:
`create_sample_strains()['fast_growing_cyanobacteria']`,
`create_sample_environments()['tropical_ocean']`, and the
`OperationalParameters` from the module's `__main__` block. -/

/-- The `fast_growing_cyanobacteria` sample strain (lines 336-347). -/
def sampleStrain : AlgaeStrain :=
  { name := "Fast-growing Cyanobacteria"
    carbon_content_percent := 45
    doubling_time_hours := 12
    photosynthetic_efficiency := 0.8
    sinking_rate_m_per_day := 50
    export_fraction := 0.4
    optimal_temperature_range := (20, 30)
    optimal_salinity_range := (30, 40)
    genetic_kill_switch := true
    r_and_d_cost_millions := 15 }

/-- The `tropical_ocean` sample environment (lines 379-389). -/
def sampleEnv : EnvironmentalConditions :=
  { euphotic_depth_m := 80
    surface_temperature_celsius := 28
    salinity_ppt := 35
    nutrient_nitrogen_umol_per_l := 2
    nutrient_phosphorus_umol_per_l := 0.2
    nutrient_iron_nmol_per_l := 0.05
    mixing_depth_m := 50
    current_speed_m_per_s := 0.1
    sequestration_depth_m := 1000 }

/-- The sample operational parameters from the module main block
(lines 424-432). -/
def sampleOps : OperationalParameters :=
  { area_km2 := 1000
    application_frequency_per_year := 4
    cultivation_cost_per_kg := 0.5
    delivery_cost_per_kg := 0.3
    vessel_cost_per_day := 5000
    monitoring_cost_per_year := 100000
    regulatory_cost_per_year := 50000 }

/-- The tropical sample environment cooled to 10 degrees, strictly below
the sample strain's optimal minimum of 20. -/
def coldEnv : EnvironmentalConditions :=
  { sampleEnv with surface_temperature_celsius := 10 }

/-! Helper lemmas about the shared bell-curve shape of the temperature
and salinity response factors. -/

/-- The bell-shaped response is 0 strictly outside the optimal range. -/
lemma bell_zero (a b t : ℝ) (h : t < a ∨ t > b) :
    (if t < a ∨ t > b then (0 : ℝ)
     else if t = (a + b) / 2 then 1
     else 1 - ((t - (a + b) / 2) / (b - a)) ^ 2) = 0 :=
  if_pos h

/-- On an ordered range, the bell-shaped response evaluates to 3/4 at
either endpoint of the range. -/
lemma bell_boundary (a b t : ℝ) (hab : a < b) (ht : t = a ∨ t = b) :
    (if t < a ∨ t > b then (0 : ℝ)
     else if t = (a + b) / 2 then 1
     else 1 - ((t - (a + b) / 2) / (b - a)) ^ 2) = 3 / 4 := by
  have hcond : ¬(t < a ∨ t > b) := by
    push_neg
    rcases ht with h | h <;> subst h <;> exact ⟨by linarith, by linarith⟩
  have hmid : t ≠ (a + b) / 2 := by
    rcases ht with h | h <;> subst h <;> intro hc <;> linarith
  rw [if_neg hcond, if_neg hmid]
  have hba : b - a ≠ 0 := sub_ne_zero.mpr (ne_of_gt hab)
  rcases ht with h | h <;> subst h <;> field_simp <;> ring

/-- On an ordered range, the bell-shaped response stays within
`[3/4, 1]` whenever the input lies inside the range. -/
lemma bell_bounds (a b t : ℝ) (hab : a < b) (h1 : a ≤ t) (h2 : t ≤ b) :
    3 / 4 ≤ (if t < a ∨ t > b then (0 : ℝ)
      else if t = (a + b) / 2 then 1
      else 1 - ((t - (a + b) / 2) / (b - a)) ^ 2) ∧
    (if t < a ∨ t > b then (0 : ℝ)
      else if t = (a + b) / 2 then 1
      else 1 - ((t - (a + b) / 2) / (b - a)) ^ 2) ≤ 1 := by
  have hcond : ¬(t < a ∨ t > b) := by push_neg; exact ⟨h1, h2⟩
  rw [if_neg hcond]
  by_cases hm : t = (a + b) / 2
  · rw [if_pos hm]; norm_num
  · rw [if_neg hm]
    have hba : (0 : ℝ) < b - a := by linarith
    have key : ((t - (a + b) / 2) / (b - a)) ^ 2 ≤ 1 / 4 := by
      rw [div_pow, div_le_iff₀ (pow_pos hba 2)]
      nlinarith [mul_nonneg (sub_nonneg.mpr h1) (sub_nonneg.mpr h2)]
    constructor
    · linarith
    · nlinarith [sq_nonneg ((t - (a + b) / 2) / (b - a))]

/-! Helper lemmas for the zero-propagation chain when the temperature is
strictly outside the optimal range. -/

lemma temp_factor_zero_outside (s : AlgaeStrain) (e : EnvironmentalConditions)
    (h : e.surface_temperature_celsius < s.optimal_temperature_range.1 ∨
      e.surface_temperature_celsius > s.optimal_temperature_range.2) :
    temperature_response_factor s e = 0 := by
  unfold temperature_response_factor
  exact if_pos h

lemma growth_zero_of_temp_outside (s : AlgaeStrain) (e : EnvironmentalConditions)
    (h : e.surface_temperature_celsius < s.optimal_temperature_range.1 ∨
      e.surface_temperature_celsius > s.optimal_temperature_range.2) :
    calculate_growth_rate s e = 0 := by
  unfold calculate_growth_rate
  rw [temp_factor_zero_outside s e h]
  simp

lemma npp_zero_of_temp_outside (s : AlgaeStrain) (e : EnvironmentalConditions)
    (h : e.surface_temperature_celsius < s.optimal_temperature_range.1 ∨
      e.surface_temperature_celsius > s.optimal_temperature_range.2) :
    calculate_net_primary_productivity s e = 0 := by
  unfold calculate_net_primary_productivity
  rw [growth_zero_of_temp_outside s e h]
  simp

lemma co2_zero_of_temp_outside (s : AlgaeStrain) (e : EnvironmentalConditions)
    (o : OperationalParameters)
    (h : e.surface_temperature_celsius < s.optimal_temperature_range.1 ∨
      e.surface_temperature_celsius > s.optimal_temperature_range.2) :
    calculate_co2_removed s e o = 0 := by
  unfold calculate_co2_removed calculate_total_carbon_sequestered calculate_carbon_export
  rw [npp_zero_of_temp_outside s e h]
  ring

/-- C3: the claim says the factor is exactly 0 at `temp = opt_min`.
Counterexample: for the sample strain (optimal range `(20, 30)`) at
surface temperature exactly 20, the temperature response factor is 3/4,
not 0: the strict `<`/`>` cutoff does not fire at the boundary and the
bell branch yields `1 - (1/2)^2`. -/
theorem C3_counterexample :
    temperature_response_factor sampleStrain
      { sampleEnv with surface_temperature_celsius := 20 } ≠ 0 ∧
    temperature_response_factor sampleStrain
      { sampleEnv with surface_temperature_celsius := 20 } = 3 / 4 := by
  have h : temperature_response_factor sampleStrain
      { sampleEnv with surface_temperature_celsius := 20 } = 3 / 4 := by
    unfold temperature_response_factor
    norm_num [sampleStrain, sampleEnv]
  exact ⟨by rw [h]; norm_num, h⟩

/-- C3 (amended): for every strain with an ordered optimal temperature
range, at surface temperature exactly `opt_min` or exactly `opt_max`
the temperature response factor is exactly 3/4 (the hard-zero cutoff is
strict, so the boundary falls on the bell branch). -/
theorem C3_boundary_is_three_quarters (s : AlgaeStrain)
    (e : EnvironmentalConditions)
    (hlt : s.optimal_temperature_range.1 < s.optimal_temperature_range.2)
    (hb : e.surface_temperature_celsius = s.optimal_temperature_range.1 ∨
      e.surface_temperature_celsius = s.optimal_temperature_range.2) :
    temperature_response_factor s e = 3 / 4 := by
  unfold temperature_response_factor
  exact bell_boundary _ _ _ hlt hb

/-- Witness for C3 (amended) at the sample strain and temperature 20. -/
theorem C3_boundary_witness :
    temperature_response_factor sampleStrain
      { sampleEnv with surface_temperature_celsius := 20 } = 3 / 4 :=
  C3_boundary_is_three_quarters sampleStrain
    { sampleEnv with surface_temperature_celsius := 20 }
    (by norm_num [sampleStrain]) (Or.inl (by norm_num [sampleStrain, sampleEnv]))

/-- C4: if the surface temperature is strictly below `opt_min` or
strictly above `opt_max`, the growth rate, the NPP and the removed CO2
are all exactly 0. -/
theorem C4_outside_range_all_zero (s : AlgaeStrain)
    (e : EnvironmentalConditions) (o : OperationalParameters)
    (h : e.surface_temperature_celsius < s.optimal_temperature_range.1 ∨
      e.surface_temperature_celsius > s.optimal_temperature_range.2) :
    calculate_growth_rate s e = 0 ∧
    calculate_net_primary_productivity s e = 0 ∧
    calculate_co2_removed s e o = 0 :=
  ⟨growth_zero_of_temp_outside s e h, npp_zero_of_temp_outside s e h,
    co2_zero_of_temp_outside s e o h⟩

/-- Witness for C4: the sample strain in the tropical environment cooled
to 10 degrees (strictly below the optimal minimum 20). -/
theorem C4_outside_range_witness :
    calculate_growth_rate sampleStrain coldEnv = 0 ∧
    calculate_net_primary_productivity sampleStrain coldEnv = 0 ∧
    calculate_co2_removed sampleStrain coldEnv sampleOps = 0 :=
  C4_outside_range_all_zero sampleStrain coldEnv sampleOps
    (Or.inl (by norm_num [sampleStrain, sampleEnv, coldEnv]))

/-- C9: the explicit-state evaluation leaves the model state unchanged
(no mutation of the model object or the stored input records) and a
second evaluation on the resulting state yields the same metrics and
cost breakdown (deterministic pure function, no hidden state). -/
theorem C9_evaluation_pure (m : Model) :
    (evaluateM m).2 = m ∧
    (evaluateM ((evaluateM m).2)).1 = (evaluateM m).1 :=
  ⟨rfl, rfl⟩

/-- C10: on an ordered optimal range, whenever the environmental value
(temperature, respectively salinity) lies within the range, the
bell-curve response factor is in `[3/4, 1]` without any clamping. -/
theorem C10_in_range_bounds (s : AlgaeStrain) (e : EnvironmentalConditions) :
    (s.optimal_temperature_range.1 < s.optimal_temperature_range.2 →
      s.optimal_temperature_range.1 ≤ e.surface_temperature_celsius →
      e.surface_temperature_celsius ≤ s.optimal_temperature_range.2 →
      3 / 4 ≤ temperature_response_factor s e ∧
        temperature_response_factor s e ≤ 1) ∧
    (s.optimal_salinity_range.1 < s.optimal_salinity_range.2 →
      s.optimal_salinity_range.1 ≤ e.salinity_ppt →
      e.salinity_ppt ≤ s.optimal_salinity_range.2 →
      3 / 4 ≤ salinity_response_factor s e ∧
        salinity_response_factor s e ≤ 1) := by
  constructor
  · intro h1 h2 h3
    unfold temperature_response_factor
    exact bell_bounds _ _ _ h1 h2 h3
  · intro h1 h2 h3
    unfold salinity_response_factor
    exact bell_bounds _ _ _ h1 h2 h3

/-- C5: the cost-per-tonne computation returns exactly the top element
(the embedding of `float('inf')`) whenever the removed CO2 is at most 0,
and otherwise the finite real quotient of total annual cost by removed
CO2, which is neither the top nor the bottom element of `EReal`. -/
theorem C5_cost_per_tonne_infinity (s : AlgaeStrain)
    (e : EnvironmentalConditions) (o : OperationalParameters) :
    (calculate_co2_removed s e o ≤ 0 → calculate_cost_per_tonne_co2 s e o = ⊤) ∧
    (0 < calculate_co2_removed s e o →
      calculate_cost_per_tonne_co2 s e o =
        (((calculate_operational_costs s e o).total /
          calculate_co2_removed s e o : ℝ) : EReal) ∧
      calculate_cost_per_tonne_co2 s e o ≠ ⊤ ∧
      calculate_cost_per_tonne_co2 s e o ≠ ⊥) := by
  constructor
  · intro h
    unfold calculate_cost_per_tonne_co2
    rw [if_pos h]
  · intro h
    unfold calculate_cost_per_tonne_co2
    rw [if_neg (not_le.mpr h)]
    exact ⟨rfl, EReal.coe_ne_top _, EReal.coe_ne_bot _⟩

/-- Witness for C5: in the cooled tropical environment the removed CO2
is 0, and the cost per tonne is exactly the top element. -/
theorem C5_cost_per_tonne_witness :
    calculate_cost_per_tonne_co2 sampleStrain coldEnv sampleOps = ⊤ :=
  (C5_cost_per_tonne_infinity sampleStrain coldEnv sampleOps).1
    (le_of_eq (co2_zero_of_temp_outside sampleStrain coldEnv sampleOps
      (Or.inl (by norm_num [sampleStrain, sampleEnv, coldEnv]))))

/-- C6: holding the strain, the environment and every other operational
parameter fixed, doubling `area_km2` exactly doubles both the removed
CO2 and the required biomass (both are linear in the area). -/
theorem C6_area_linearity (s : AlgaeStrain) (e : EnvironmentalConditions)
    (o : OperationalParameters) :
    calculate_co2_removed s e { o with area_km2 := 2 * o.area_km2 } =
      2 * calculate_co2_removed s e o ∧
    calculate_biomass_required s e { o with area_km2 := 2 * o.area_km2 } =
      2 * calculate_biomass_required s e o := by
  constructor
  · unfold calculate_co2_removed calculate_total_carbon_sequestered
    dsimp only
    ring
  · unfold calculate_biomass_required
    by_cases h : calculate_net_primary_productivity s e ≥ 125
    · rw [if_pos h, if_pos h]
      ring
    · rw [if_neg h, if_neg h]
      dsimp only
      ring

/-- Formula for the light limitation factor on the interpolation branch
`10 ≤ depth ≤ 100`. -/
lemma light_factor_formula (e : EnvironmentalConditions)
    (h1 : 10 ≤ e.euphotic_depth_m) (h2 : e.euphotic_depth_m ≤ 100) :
    light_limitation_factor e = 0.1 + 0.9 * (e.euphotic_depth_m - 10) / 90 := by
  unfold light_limitation_factor
  rw [if_neg (not_lt.mpr h1), if_neg (not_lt.mpr h2)]

/-- C7: with everything else fixed, the growth rate is monotonically
non-decreasing in the euphotic depth over `[10, 100]`. -/
theorem C7_growth_monotone_in_depth (s : AlgaeStrain)
    (e : EnvironmentalConditions) (d1 d2 : ℝ)
    (h10 : 10 ≤ d1) (h12 : d1 ≤ d2) (h100 : d2 ≤ 100) :
    calculate_growth_rate s { e with euphotic_depth_m := d1 } ≤
      calculate_growth_rate s { e with euphotic_depth_m := d2 } := by
  have key : ∀ d : ℝ, 10 ≤ d → d ≤ 100 →
      calculate_growth_rate s { e with euphotic_depth_m := d } =
      max 0 ((0.1 + 0.9 * (d - 10) / 90) *
        (base_growth_rate s * temperature_response_factor s e *
          nutrient_limitation_factor e * salinity_response_factor s e)) := by
    intro d hd1 hd2
    unfold calculate_growth_rate
    rw [light_factor_formula { e with euphotic_depth_m := d } hd1 hd2]
    show max 0 (base_growth_rate s * temperature_response_factor s e *
      (0.1 + 0.9 * (d - 10) / 90) * nutrient_limitation_factor e *
      salinity_response_factor s e) = _
    congr 1
    ring
  rw [key d1 h10 (le_trans h12 h100), key d2 (le_trans h10 h12) h100]
  set K := base_growth_rate s * temperature_response_factor s e *
    nutrient_limitation_factor e * salinity_response_factor s e with hK
  rcases le_or_lt 0 K with hKpos | hKneg
  · apply max_le_max le_rfl
    apply mul_le_mul_of_nonneg_right _ hKpos
    linarith
  · have hz1 : (0.1 + 0.9 * (d1 - 10) / 90) * K ≤ 0 := by nlinarith
    have hz2 : (0.1 + 0.9 * (d2 - 10) / 90) * K ≤ 0 := by nlinarith
    rw [max_eq_left hz1, max_eq_left hz2]

/-- Witness for C7: in the tropical environment with the sample strain,
the growth rate at euphotic depth 40 is at most the one at depth 80. -/
theorem C7_growth_monotone_witness :
    calculate_growth_rate sampleStrain { sampleEnv with euphotic_depth_m := 40 } ≤
      calculate_growth_rate sampleStrain { sampleEnv with euphotic_depth_m := 80 } :=
  C7_growth_monotone_in_depth sampleStrain sampleEnv 40 80
    (by norm_num) (by norm_num) (by norm_num)

/-- C8: with zero nitrogen (and the data-model constraint that the other
nutrient concentrations are non-negative), the nutrient limitation
factor is 0 and the growth rate is 0, whatever the other fields are. -/
theorem C8_zero_nitrogen_zero_growth (s : AlgaeStrain)
    (e : EnvironmentalConditions)
    (hn : e.nutrient_nitrogen_umol_per_l = 0)
    (hp : 0 ≤ e.nutrient_phosphorus_umol_per_l)
    (hfe : 0 ≤ e.nutrient_iron_nmol_per_l) :
    nutrient_limitation_factor e = 0 ∧ calculate_growth_rate s e = 0 := by
  have hnf : nutrient_limitation_factor e = 0 := by
    unfold nutrient_limitation_factor
    rw [hn]
    have h0 : min (1 : ℝ) (0 / 5) = 0 := by norm_num
    rw [h0]
    exact min_eq_left (le_min
      (le_min (by norm_num) (div_nonneg hp (by norm_num)))
      (le_min (by norm_num) (div_nonneg hfe (by norm_num))))
  refine ⟨hnf, ?_⟩
  unfold calculate_growth_rate
  rw [hnf]
  simp

/-- Witness for C8: the tropical environment with nitrogen set to 0
gives nutrient factor 0 and growth rate 0 for the sample strain. -/
theorem C8_zero_nitrogen_witness :
    nutrient_limitation_factor
      { sampleEnv with nutrient_nitrogen_umol_per_l := 0 } = 0 ∧
    calculate_growth_rate sampleStrain
      { sampleEnv with nutrient_nitrogen_umol_per_l := 0 } = 0 :=
  C8_zero_nitrogen_zero_growth sampleStrain
    { sampleEnv with nutrient_nitrogen_umol_per_l := 0 }
    rfl (by norm_num [sampleEnv]) (by norm_num [sampleEnv])

/-- The sample strain with a negative doubling time: an invalid input
that the spec says must be rejected with an explicit signal. -/
def badStrain : AlgaeStrain := { sampleStrain with doubling_time_hours := -1 }

/-- C2: the code performs no input validation. Constructing a strain
with `doubling_time_hours = -1` succeeds (the record types carry no
constraints) and evaluation silently computes an ordinary number: the
effective growth rate comes out as 0 via the `max(0, ...)` floor, with
no invalid-input signal anywhere. -/
theorem C2_no_input_validation :
    calculate_growth_rate badStrain sampleEnv = 0 := by
  have h1 : temperature_response_factor badStrain sampleEnv = 0.91 := by
    unfold temperature_response_factor
    norm_num [badStrain, sampleStrain, sampleEnv]
  have h2 : light_limitation_factor sampleEnv = 0.8 := by
    unfold light_limitation_factor
    norm_num [sampleEnv]
  have h3 : nutrient_limitation_factor sampleEnv = 0.4 := by
    unfold nutrient_limitation_factor
    norm_num [sampleEnv, min_def]
  have h4 : salinity_response_factor badStrain sampleEnv = 1 := by
    unfold salinity_response_factor
    norm_num [badStrain, sampleStrain, sampleEnv]
  have hlog : 0 < Real.log 2 := Real.log_pos (by norm_num)
  unfold calculate_growth_rate base_growth_rate
  rw [h1, h2, h3, h4]
  rw [max_eq_left]
  have hdt : badStrain.doubling_time_hours = -1 := rfl
  rw [hdt]
  nlinarith [hlog]

/-- Helper for C1: the combination of the three sub-scores is bounded by
`[0, 1.1)` for every finite positive cost-per-tonne: the cost sub-score
is floored at 0 but not capped at 1 (it can approach 1.25), the scale
sub-score is clamped to `[0, 1]`, and the safety sub-score is 1 or 0.5. -/
lemma viability_score_aux_bounds (s : AlgaeStrain) (cpt co2 : ℝ) :
    0 ≤ calculate_viability_score s cpt co2 ∧
    calculate_viability_score s cpt co2 < 1.1 := by
  unfold calculate_viability_score
  by_cases h : cpt ≤ 0 ∨ co2 ≤ 0
  · rw [if_pos h]; norm_num
  · rw [if_neg h]
    push_neg at h
    obtain ⟨h1, h2⟩ := h
    have hcost1 : max 0 (1 - (cpt - 50) / 200) < 1.25 :=
      max_lt (by norm_num) (by linarith)
    have hcost0 : (0 : ℝ) ≤ max 0 (1 - (cpt - 50) / 200) := le_max_left _ _
    have hscale1 : min 1 (co2 / 10000) ≤ 1 := min_le_left _ _
    have hscale0 : (0 : ℝ) ≤ min 1 (co2 / 10000) :=
      le_min (by norm_num) (div_nonneg h2.le (by norm_num))
    have hsafe0 : (0 : ℝ) ≤ (if s.genetic_kill_switch then (1 : ℝ) else 0.5) := by
      by_cases hk : s.genetic_kill_switch = true <;> norm_num [hk]
    have hsafe1 : (if s.genetic_kill_switch then (1 : ℝ) else 0.5) ≤ 1 := by
      by_cases hk : s.genetic_kill_switch = true <;> norm_num [hk]
    constructor
    · linarith
    · linarith

/-- The strain for the C1 counterexample: valid per the spec data model,
with a tiny amortized R&D cost and otherwise favourable parameters. -/
def cxStrain : AlgaeStrain :=
  { name := "cx"
    carbon_content_percent := 50
    doubling_time_hours := 24
    photosynthetic_efficiency := 0.5
    sinking_rate_m_per_day := 10000
    export_fraction := 1
    optimal_temperature_range := (20, 30)
    optimal_salinity_range := (30, 40)
    genetic_kill_switch := true
    r_and_d_cost_millions := 0.001 }

/-- The environment for the C1 counterexample: all response factors
evaluate to exactly 1. -/
def cxEnv : EnvironmentalConditions :=
  { euphotic_depth_m := 100
    surface_temperature_celsius := 25
    salinity_ppt := 35
    nutrient_nitrogen_umol_per_l := 1000
    nutrient_phosphorus_umol_per_l := 1000
    nutrient_iron_nmol_per_l := 1000
    mixing_depth_m := 100
    current_speed_m_per_s := 0.1
    sequestration_depth_m := 1000 }

/-- The operations for the C1 counterexample: all per-year fixed costs
are 0, so the only cost is the tiny amortized R&D cost. -/
def cxOps : OperationalParameters :=
  { area_km2 := 1000
    application_frequency_per_year := 4
    cultivation_cost_per_kg := 1
    delivery_cost_per_kg := 1
    vessel_cost_per_day := 0
    monitoring_cost_per_year := 0
    regulatory_cost_per_year := 0 }

lemma cx_temp_factor : temperature_response_factor cxStrain cxEnv = 1 := by
  unfold temperature_response_factor
  norm_num [cxStrain, cxEnv]

lemma cx_sal_factor : salinity_response_factor cxStrain cxEnv = 1 := by
  unfold salinity_response_factor
  norm_num [cxStrain, cxEnv]

lemma cx_light_factor : light_limitation_factor cxEnv = 1 := by
  unfold light_limitation_factor
  norm_num [cxEnv]

lemma cx_nutrient_factor : nutrient_limitation_factor cxEnv = 1 := by
  unfold nutrient_limitation_factor
  norm_num [cxEnv, min_def]

lemma cx_growth : calculate_growth_rate cxStrain cxEnv = Real.log 2 := by
  unfold calculate_growth_rate base_growth_rate
  rw [cx_temp_factor, cx_light_factor, cx_nutrient_factor, cx_sal_factor]
  norm_num [cxStrain]
  exact Real.log_nonneg (by norm_num : (1 : ℝ) ≤ 2)

lemma cx_npp : calculate_net_primary_productivity cxStrain cxEnv =
    36525 * Real.log 2 := by
  unfold calculate_net_primary_productivity
  rw [cx_growth]
  show max 0 (Real.log 2 * 1 * (100 : ℝ) * 365.25) = 36525 * Real.log 2
  rw [show Real.log 2 * 1 * (100 : ℝ) * 365.25 = 36525 * Real.log 2 by ring]
  exact max_eq_right (mul_nonneg (by norm_num) (Real.log_nonneg (by norm_num)))

lemma cx_npp_ge : (125 : ℝ) ≤ calculate_net_primary_productivity cxStrain cxEnv := by
  rw [cx_npp]
  nlinarith [Real.log_two_gt_d9]

lemma cx_biomass : calculate_biomass_required cxStrain cxEnv cxOps = 0 := by
  unfold calculate_biomass_required
  rw [if_pos cx_npp_ge]

lemma cx_total : (calculate_operational_costs cxStrain cxEnv cxOps).total = 100 := by
  unfold calculate_operational_costs
  dsimp only
  rw [cx_biomass]
  norm_num [cxStrain, cxOps]

lemma cx_co2_eq : calculate_co2_removed cxStrain cxEnv cxOps =
    36525 * Real.log 2 * Real.exp (-(1 / 100)) * 3670 := by
  unfold calculate_co2_removed calculate_total_carbon_sequestered calculate_carbon_export
  rw [cx_npp]
  norm_num [cxStrain, cxEnv, cxOps]
  ring

lemma cx_co2_lb : (10000 : ℝ) ≤ calculate_co2_removed cxStrain cxEnv cxOps := by
  rw [cx_co2_eq]
  have hl2 : (0.69 : ℝ) ≤ Real.log 2 := by nlinarith [Real.log_two_gt_d9]
  have hexp : (0.99 : ℝ) ≤ Real.exp (-(1 / 100)) := by
    nlinarith [Real.add_one_le_exp (-(1 / 100) : ℝ)]
  have key : (0.6831 : ℝ) ≤ Real.log 2 * Real.exp (-(1 / 100)) := by
    nlinarith [mul_le_mul hl2 hexp (by norm_num) (by linarith)]
  nlinarith [key]

/-- C1: the claim says the viability score lies in `[0, 1]` for every
valid triple, with each sub-score clamped to `[0, 1]` before weighting.
Counterexample: a valid triple (tiny amortized R&D cost, zero fixed
costs, large removal) whose cost per tonne is below $50, so the cost
sub-score exceeds 1 and the combined score exceeds 1. -/
theorem C1_counterexample :
    cxStrain.Valid ∧ cxEnv.Valid ∧ cxOps.Valid ∧
    1 < viability_score cxStrain cxEnv cxOps := by
  refine ⟨?_, ?_, ?_, ?_⟩
  · norm_num [AlgaeStrain.Valid, cxStrain]
  · norm_num [EnvironmentalConditions.Valid, cxEnv]
  · norm_num [OperationalParameters.Valid, cxOps]
  · have hco2 := cx_co2_lb
    have hpos : 0 < calculate_co2_removed cxStrain cxEnv cxOps := by linarith
    unfold viability_score
    rw [if_neg (not_le.mpr hpos), cx_total]
    set c2 := calculate_co2_removed cxStrain cxEnv cxOps with hc2
    have hcpt_pos : 0 < 100 / c2 := div_pos (by norm_num) hpos
    have hcpt_le : 100 / c2 ≤ 0.01 := by
      rw [div_le_iff₀ hpos]
      nlinarith
    unfold calculate_viability_score
    rw [if_neg (by push_neg; exact ⟨hcpt_pos, hpos⟩)]
    have hks : (if cxStrain.genetic_kill_switch then (1 : ℝ) else 0.5) = 1 := by
      norm_num [cxStrain]
    rw [hks]
    have hscale : min 1 (c2 / 10000) = 1 := min_eq_left (by
      rw [le_div_iff₀ (by norm_num : (0 : ℝ) < 10000)]
      linarith)
    rw [hscale]
    have hcost : (1.2499 : ℝ) ≤ max 0 (1 - (100 / c2 - 50) / 200) :=
      le_trans (by linarith : (1.2499 : ℝ) ≤ 1 - (100 / c2 - 50) / 200)
        (le_max_right _ _)
    linarith

/-- C1 (amended): for every (strain, environment, operations) triple the
viability score lies in `[0, 1.1)`: the scale and safety sub-scores are
bounded by 1 as claimed, but the cost sub-score is only floored at 0 and
can approach 1.25, so the weighted sum is below 1.1 yet can exceed 1. -/
theorem C1_amended_bounds (s : AlgaeStrain) (e : EnvironmentalConditions)
    (o : OperationalParameters) :
    0 ≤ viability_score s e o ∧ viability_score s e o < 1.1 := by
  unfold viability_score
  by_cases h : calculate_co2_removed s e o ≤ 0
  · rw [if_pos h]; norm_num
  · rw [if_neg h]
    exact viability_score_aux_bounds s _ _

/-- Witness for C10 at the sample strain in the tropical environment:
temperature 28 lies in `[20, 30]` and salinity 35 lies in `[30, 40]`. -/
theorem C10_in_range_witness :
    (3 / 4 ≤ temperature_response_factor sampleStrain sampleEnv ∧
      temperature_response_factor sampleStrain sampleEnv ≤ 1) ∧
    (3 / 4 ≤ salinity_response_factor sampleStrain sampleEnv ∧
      salinity_response_factor sampleStrain sampleEnv ≤ 1) :=
  ⟨(C10_in_range_bounds sampleStrain sampleEnv).1
      (by norm_num [sampleStrain]) (by norm_num [sampleStrain, sampleEnv])
      (by norm_num [sampleStrain, sampleEnv]),
    (C10_in_range_bounds sampleStrain sampleEnv).2
      (by norm_num [sampleStrain]) (by norm_num [sampleStrain, sampleEnv])
      (by norm_num [sampleStrain, sampleEnv])⟩

end
